import Mathlib

/-!
Verification of the aggregation and derived-metrics core of the BNP SR
analytics dashboard (`BNP/Streamlit`): record normalization
(`scripts/build_extracts._enrich`), grouped aggregation
(`build_category_kpis`, `build_global_stats`), ranking utilities
(`charts.pareto_categories`), IQR outlier detection
(`metrics.detect_outliers_iqr`), header KPIs (`metrics.compute_header_kpis`),
sidebar filters (`filters.apply_*_filter`) and the data-loading failure
semantics (`data_loader._query_sql`, `load_sr_sample`).

Timestamps are modelled as exact rationals counting hours since the Unix
epoch; machine floats of the source are modelled as exact rationals (the
source's arithmetic on the values of interest is exact apart from the
explicit 2-decimal rounding, which is modelled exactly).
-/

set_option maxRecDepth 4000

namespace BNP

/-- Python `round` ties-to-even rounding of a rational to an integer. -/
def roundHalfEven (q : ℚ) : ℤ :=
  let f := ⌊q⌋
  let r := q - (f : ℚ)
  if r < 1/2 then f
  else if 1/2 < r then f + 1
  else if f % 2 = 0 then f else f + 1

/-- `round(x, 2)` from the source, as exact rational rounding. -/
def round2 (q : ℚ) : ℚ := (roundHalfEven (q * 100) : ℚ) / 100

/-! ## Calendar arithmetic (for the `month` truncation of `_enrich`) -/

/-- Gregorian civil date (y, m, d) from a day count since 1970-01-01
(Howard Hinnant's `civil_from_days`; all divisions act on nonnegative
operands after the era shift, so truncating division is exact). -/
def civilFromDays (z0 : ℤ) : ℤ × ℤ × ℤ :=
  let z := z0 + 719468
  let era := (if 0 ≤ z then z else z - 146096) / 146097
  let doe := z - era * 146097
  let yoe := (doe - doe / 1460 + doe / 36524 - doe / 146096) / 365
  let y := yoe + era * 400
  let doy := doe - (365 * yoe + yoe / 4 - yoe / 100)
  let mp := (5 * doy + 2) / 153
  let d := doy - (153 * mp + 2) / 5 + 1
  let m := if mp < 10 then mp + 3 else mp - 9
  (if m ≤ 2 then y + 1 else y, m, d)

/-- Day count since 1970-01-01 of a Gregorian civil date
(Howard Hinnant's `days_from_civil`). -/
def daysFromCivil (y0 m d : ℤ) : ℤ :=
  let y := if m ≤ 2 then y0 - 1 else y0
  let era := (if 0 ≤ y then y else y - 399) / 400
  let yoe := y - era * 400
  let doy := (153 * (if 2 < m then m - 3 else m + 9) + 2) / 5 + d - 1
  let doe := yoe * 365 + yoe / 4 - yoe / 100 + doy
  era * 146097 + doe - 719468

/-- Hour-timestamp of midnight on a given civil date (helper for inputs). -/
def dateHours (y m d : ℤ) : ℚ := (daysFromCivil y m d : ℚ) * 24

/-- `created_at.dt.to_period("M").dt.to_timestamp()`: truncate an
hour-timestamp to the first instant of its calendar month. -/
def monthStart (t : ℚ) : ℚ :=
  let c := civilFromDays ⌊t / 24⌋
  (daysFromCivil c.1 c.2.1 1 : ℚ) * 24

/-! ## Record normalizer (`build_extracts._enrich`) -/

/-- A raw stored field: a parseable timestamp, an unparseable (malformed)
value, or NULL. -/
inductive RawVal
  | ts (t : ℚ)
  | malformed
  | null
deriving DecidableEq, Repr

/-- `pd.to_datetime(-, errors="coerce")`: malformed and null both coerce
to NaT, modelled as `none`. -/
def parseTs : RawVal → Option ℚ
  | .ts t => some t
  | .malformed => none
  | .null => none

/-- A raw SR row as selected by `_load_raw` (category already resolved). -/
structure RawTicket where
  sr_id : ℕ
  sr_number : String
  category : String
  desk : String
  created_at : RawVal
  closed_at : RawVal
  expiration_date : RawVal
  first_response_at : RawVal
deriving DecidableEq, Repr

/-- An enriched SR row: output schema of `_enrich`. -/
structure EnrichedTicket where
  sr_id : ℕ
  sr_number : String
  category : String
  desk : String
  created_at : Option ℚ
  closed_at : Option ℚ
  expiration_date : Option ℚ
  first_response_at : Option ℚ
  month : Option ℚ
  hours_to_close : Option ℚ
  first_response_hours : Option ℚ
  is_closed : Bool
  sla_met : Option Bool
  status : String
deriving DecidableEq, Repr

/-- One row of `_enrich`: parse the four date columns, derive `month`,
`hours_to_close`, `first_response_hours`, `is_closed`, `sla_met`, `status`. -/
def enrichRow (r : RawTicket) : EnrichedTicket :=
  let created := parseTs r.created_at
  let closed := parseTs r.closed_at
  let expiration := parseTs r.expiration_date
  let firstResp := parseTs r.first_response_at
  { sr_id := r.sr_id
    sr_number := r.sr_number
    category := r.category
    desk := r.desk
    created_at := created
    closed_at := closed
    expiration_date := expiration
    first_response_at := firstResp
    month := created.map monthStart
    hours_to_close :=
      match closed, created with
      | some c, some a => some (c - a)
      | _, _ => none
    first_response_hours :=
      match firstResp, created with
      | some f, some a => some (f - a)
      | _, _ => none
    is_closed := closed.isSome
    sla_met :=
      match closed, expiration with
      | some c, some e => some (decide (c ≤ e))
      | _, _ => none
    status := if closed.isSome then "Closed" else "Open" }

/-- `_enrich` on the whole relation: row-wise, cardinality preserving. -/
def enrich (rs : List RawTicket) : List EnrichedTicket := rs.map enrichRow

/-! ## Aggregation engine (`build_category_kpis`, `build_global_stats`) -/

/-- Pandas column mean with NaN skipping: mean of the defined entries,
`none` when no entry is defined. -/
def meanOpt (xs : List (Option ℚ)) : Option ℚ :=
  let vs := xs.filterMap id
  if vs.isEmpty then none else some (vs.sum / vs.length)

/-- Distinct group keys in ascending order (pandas `groupby` sorts keys). -/
def sortedKeys {κ : Type} [LinearOrder κ] (ks : List κ) : List κ :=
  ks.dedup.insertionSort (· ≤ ·)

/-- `ROUND(AVG(sla_met) * 100, 2)` over the rows of a group where `sla_met`
is defined; `none` if the group has no such row (the left merge leaves the
group's `sla_compliance` NaN; an empty `sla_df` sets the whole column to
None). -/
def slaCompliance (g : List EnrichedTicket) : Option ℚ :=
  let elig := g.filterMap (·.sla_met)
  if elig.isEmpty then none
  else some (round2 ((elig.countP id : ℚ) / (elig.length : ℚ) * 100))

/-- Output row schema of `build_category_kpis`. -/
structure CategoryKpiRow where
  category : String
  total_sr : ℕ
  avg_hours_to_close : Option ℚ
  avg_first_response_hours : Option ℚ
  closure_rate : ℚ
  sla_compliance : Option ℚ
deriving DecidableEq, Repr

/-- The rows of the enriched relation belonging to one category group. -/
def catGroup (ts : List EnrichedTicket) (c : String) : List EnrichedTicket :=
  ts.filter (fun t => decide (t.category = c))

/-- `build_extracts.build_category_kpis`: group the enriched relation by
category; count, mean the defined durations, closure rate, SLA compliance. -/
def buildCategoryKpis (ts : List EnrichedTicket) : List CategoryKpiRow :=
  (sortedKeys (ts.map (·.category))).map (fun c =>
    let g := catGroup ts c
    { category := c
      total_sr := g.length
      avg_hours_to_close := meanOpt (g.map (·.hours_to_close))
      avg_first_response_hours := meanOpt (g.map (·.first_response_hours))
      closure_rate := round2 ((g.countP (·.is_closed) : ℚ) / (g.length : ℚ) * 100)
      sla_compliance := slaCompliance g })

/-! ## The three-ticket scenario of the spec (category "A") -/

def scenarioTickets : List RawTicket :=
  [ { sr_id := 1, sr_number := "SR-1", category := "A", desk := "1"
      created_at := .ts (dateHours 2025 1 1)
      closed_at := .ts (dateHours 2025 1 3)
      expiration_date := .ts (dateHours 2025 1 5)
      first_response_at := .null }
  , { sr_id := 2, sr_number := "SR-2", category := "A", desk := "1"
      created_at := .ts (dateHours 2025 1 10)
      closed_at := .null
      expiration_date := .null
      first_response_at := .null }
  , { sr_id := 3, sr_number := "SR-3", category := "A", desk := "1"
      created_at := .ts (dateHours 2025 2 1)
      closed_at := .ts (dateHours 2025 2 1)
      expiration_date := .ts (dateHours 2025 1 31)
      first_response_at := .null } ]

/-- C1: on the spec's three-ticket scenario for category "A",
`build_category_kpis` produces exactly total_sr = 3, closure_rate = 66.67,
sla_compliance = 50.0 and avg_hours_to_close = 24.0, the mean taken only
over the two defined `hours_to_close` values 48 and 0. -/
theorem buildCategoryKpis_scenario :
    (enrich scenarioTickets).filterMap (·.hours_to_close) = [48, 0] ∧
    buildCategoryKpis (enrich scenarioTickets) =
      [ { category := "A", total_sr := 3
          avg_hours_to_close := some ((48 + 0) / 2)
          avg_first_response_hours := none, closure_rate := 6667/100
          sla_compliance := some 50 } ] :=
  ⟨by with_unfolding_all rfl, by with_unfolding_all rfl⟩

/-! ## `build_global_stats` and the remaining extract builders -/

/-- Output row schema of `build_global_stats`. -/
structure GlobalStatsRow where
  month : ℚ
  total_sr : ℕ
  closed_sr : ℕ
  avg_hours_to_close : Option ℚ
  avg_first_response_hours : Option ℚ
  open_sr : ℕ
  closure_rate : ℚ
  sla_compliance : Option ℚ
deriving DecidableEq, Repr

/-- The rows of the enriched relation in one month group. -/
def monthGroup (ts : List EnrichedTicket) (m : ℚ) : List EnrichedTicket :=
  ts.filter (fun t => decide (t.month = some m))

/-- `build_extracts.build_global_stats`: group by `month` (pandas `groupby`
drops rows whose month is NaT). -/
def buildGlobalStats (ts : List EnrichedTicket) : List GlobalStatsRow :=
  (sortedKeys (ts.filterMap (·.month))).map (fun m =>
    let g := monthGroup ts m
    { month := m
      total_sr := g.length
      closed_sr := g.countP (·.is_closed)
      avg_hours_to_close := meanOpt (g.map (·.hours_to_close))
      avg_first_response_hours := meanOpt (g.map (·.first_response_hours))
      open_sr := g.length - g.countP (·.is_closed)
      closure_rate := round2 ((g.countP (·.is_closed) : ℚ) / (g.length : ℚ) * 100)
      sla_compliance := slaCompliance g })

/-- Output row schema of `build_monthly_category_trends`. -/
structure MonthlyCategoryTrendRow where
  month : ℚ
  category : String
  total_sr : ℕ
  avg_hours_to_close : Option ℚ
  closure_rate : ℚ
deriving DecidableEq, Repr

/-- `build_extracts.build_monthly_category_trends`: group by (month, category),
keys ascending lexicographically as pandas sorts them. -/
def buildMonthlyCategoryTrends (ts : List EnrichedTicket) :
    List MonthlyCategoryTrendRow :=
  ((sortedKeys (ts.filterMap (·.month))).map (fun m =>
    let gm := monthGroup ts m
    (sortedKeys (gm.map (·.category))).map (fun c =>
      let g := catGroup gm c
      { month := m
        category := c
        total_sr := g.length
        avg_hours_to_close := meanOpt (g.map (·.hours_to_close))
        closure_rate := round2 ((g.countP (·.is_closed) : ℚ) / (g.length : ℚ) * 100)
        : MonthlyCategoryTrendRow }))).flatten

/-- Output row schema of `build_monthly_desk_metrics`. -/
structure MonthlyDeskMetricsRow where
  month : ℚ
  desk : String
  total_sr : ℕ
  avg_hours_to_close : Option ℚ
  avg_first_response_hours : Option ℚ
  closure_rate : ℚ
  sla_compliance : Option ℚ
deriving DecidableEq, Repr

/-- The rows of a relation belonging to one desk. -/
def deskGroup (ts : List EnrichedTicket) (d : String) : List EnrichedTicket :=
  ts.filter (fun t => decide (t.desk = d))

/-- `build_extracts.build_monthly_desk_metrics`: group by (month, desk). -/
def buildMonthlyDeskMetrics (ts : List EnrichedTicket) :
    List MonthlyDeskMetricsRow :=
  ((sortedKeys (ts.filterMap (·.month))).map (fun m =>
    let gm := monthGroup ts m
    (sortedKeys (gm.map (·.desk))).map (fun d =>
      let g := deskGroup gm d
      { month := m
        desk := d
        total_sr := g.length
        avg_hours_to_close := meanOpt (g.map (·.hours_to_close))
        avg_first_response_hours := meanOpt (g.map (·.first_response_hours))
        closure_rate := round2 ((g.countP (·.is_closed) : ℚ) / (g.length : ℚ) * 100)
        sla_compliance := slaCompliance g : MonthlyDeskMetricsRow }))).flatten

/-- `round(x, 1)` from the source. -/
def round1 (q : ℚ) : ℚ := (roundHalfEven (q * 10) : ℚ) / 10

/-- Output row schema of `build_treatment_time_by_category`. -/
structure TreatmentTimeRow where
  category : String
  total_sr : ℕ
  avg_hours : ℚ
  min_hours : Option ℚ
  max_hours : Option ℚ
  avg_days : ℚ
deriving DecidableEq, Repr

instance : DecidableRel (fun a b : TreatmentTimeRow => b.avg_hours ≤ a.avg_hours) :=
  fun a b => inferInstanceAs (Decidable (b.avg_hours ≤ a.avg_hours))

/-- `build_extracts.build_treatment_time_by_category`: closed tickets with a
defined `hours_to_close`, grouped by category, kept when the group holds more
than 100 such tickets, sorted by mean hours descending (stable). Every group
of this builder is nonempty, so its mean is written directly. -/
def buildTreatmentTime (ts : List EnrichedTicket) : List TreatmentTimeRow :=
  let closedTs := ts.filter (fun t => t.is_closed && t.hours_to_close.isSome)
  let rows := (sortedKeys (closedTs.map (·.category))).map (fun c =>
    let hs := (catGroup closedTs c).filterMap (·.hours_to_close)
    { category := c
      total_sr := (catGroup closedTs c).length
      avg_hours := hs.sum / (hs.length : ℚ)
      min_hours := hs.min?
      max_hours := hs.max?
      avg_days := round1 (hs.sum / (hs.length : ℚ) / 24) : TreatmentTimeRow })
  (rows.filter (fun r => decide (100 < r.total_sr))).insertionSort
    (fun a b => b.avg_hours ≤ a.avg_hours)

/-! ## Data-loading failure semantics (`data_loader._query_sql`) -/

/-- Outcome of the read attempted by `_query_sql`: the database file is
missing, the query raised, or it returned a frame with its column list. -/
inductive QueryOutcome (Row : Type)
  | dbMissing
  | queryFailed
  | ok (cols : List String) (rows : List Row)

/-- A loaded frame: the column names present, plus its typed rows. -/
structure Frame (Row : Type) where
  cols : List String
  rows : List Row
deriving DecidableEq, Repr

/-- `data_loader._query_sql`: a missing database file or a raised query error
is caught and yields an empty frame carrying exactly the schema's column
list; a successful query yields its own columns and rows (schema validation
warns about missing columns and coerces types, it never drops rows). -/
def querySql {Row : Type} (schema : List (String × String)) :
    QueryOutcome Row → Frame Row
  | .dbMissing => ⟨schema.map (·.1), []⟩
  | .queryFailed => ⟨schema.map (·.1), []⟩
  | .ok cols rows => ⟨cols, rows⟩

/-- `config.SCHEMA_GLOBAL_STATS`. -/
def SCHEMA_GLOBAL_STATS : List (String × String) :=
  [("month", "datetime"), ("total_sr", "int"), ("closed_sr", "int"),
   ("open_sr", "int"), ("avg_hours_to_close", "float"),
   ("avg_first_response_hours", "float"), ("closure_rate", "float"),
   ("sla_compliance", "float")]

/-- `config.SCHEMA_CATEGORY_KPIS`. -/
def SCHEMA_CATEGORY_KPIS : List (String × String) :=
  [("category", "object"), ("total_sr", "int"), ("avg_hours_to_close", "float"),
   ("avg_first_response_hours", "float"), ("closure_rate", "float"),
   ("sla_compliance", "float")]

/-- `config.SCHEMA_MONTHLY_CATEGORY_TRENDS`. -/
def SCHEMA_MONTHLY_CATEGORY_TRENDS : List (String × String) :=
  [("month", "datetime"), ("category", "object"), ("total_sr", "int"),
   ("avg_hours_to_close", "float"), ("closure_rate", "float")]

/-- `config.SCHEMA_MONTHLY_DESK_METRICS`. -/
def SCHEMA_MONTHLY_DESK_METRICS : List (String × String) :=
  [("month", "datetime"), ("desk", "object"), ("total_sr", "int"),
   ("avg_hours_to_close", "float"), ("avg_first_response_hours", "float"),
   ("closure_rate", "float"), ("sla_compliance", "float")]

/-- `config.SCHEMA_TREATMENT_TIME`. -/
def SCHEMA_TREATMENT_TIME : List (String × String) :=
  [("category", "object"), ("total_sr", "int"), ("avg_hours", "float"),
   ("min_hours", "float"), ("max_hours", "float"), ("avg_days", "float")]

/-- `config.SCHEMA_SR_SAMPLE`. -/
def SCHEMA_SR_SAMPLE : List (String × String) :=
  [("sr_id", "object"), ("category", "object"), ("desk", "object"),
   ("status", "object"), ("created_at", "datetime"), ("closed_at", "datetime"),
   ("hours_to_close", "float"), ("first_response_hours", "float"),
   ("sla_met", "object")]

/-! ## Pareto cumulative share (`charts.pareto_categories`) -/

/-- `df.nlargest(top_n, "total_sr")` followed by a stable descending
`sort_values`: stable descending sort, truncated to the first `n`. -/
def topNDesc (n : ℕ) (vols : List ℚ) : List ℚ :=
  (vols.insertionSort (· ≥ ·)).take n

/-- Running cumulative sums (pandas `cumsum`) starting from `acc`. -/
def cumsum (acc : ℚ) : List ℚ → List ℚ
  | [] => []
  | x :: xs => (acc + x) :: cumsum (acc + x) xs

/-- The `cumulative_pct` column of `charts.pareto_categories`: cumulative
sums over the shown top-N volumes, divided by the sum of the shown top-N
volumes only (`shown_total`), times 100. -/
def paretoCumPct (vols : List ℚ) (n : ℕ) : List ℚ :=
  let shown := topNDesc n vols
  (cumsum 0 shown).map (fun s => s / shown.sum * 100)

/-! ## IQR outlier detection (`metrics.detect_outliers_iqr`) -/

/-- Input of `detect_outliers_iqr`: whether the metric column is present in
the frame, and the (group, metric) pair of each row. -/
structure MetricTable where
  hasValueCol : Bool
  rows : List (String × ℚ)
deriving DecidableEq, Repr

/-- The distinct group keys, ascending. -/
def entityList (rows : List (String × ℚ)) : List String :=
  sortedKeys (rows.map (·.1))

/-- The metric values of one entity's rows. -/
def entityVals (rows : List (String × ℚ)) (g : String) : List ℚ :=
  (rows.filter (fun r => decide (r.1 = g))).map (·.2)

/-- `df.groupby(group_col, as_index=False)[value_col].mean()`: one row per
entity holding the mean of its metric values. -/
def groupMeans (rows : List (String × ℚ)) : List (String × ℚ) :=
  (entityList rows).map (fun g =>
    (g, (entityVals rows g).sum / ((entityVals rows g).length : ℚ)))

/-- Pandas `Series.quantile` with the default linear interpolation. -/
def quantile (xs : List ℚ) (p : ℚ) : ℚ :=
  let s := xs.insertionSort (· ≤ ·)
  let h : ℚ := ((s.length - 1 : ℕ) : ℚ) * p
  let i : ℕ := (⌊h⌋).toNat
  let lo := s.getD i 0
  let hi := s.getD (i + 1) lo
  lo + (h - (i : ℚ)) * (hi - lo)

/-- `metrics.detect_outliers_iqr`: degenerate input (no rows, or metric
column absent) gets the flag column set to false on the unchanged rows;
otherwise collapse to per-entity means, compute Q1/Q3/IQR over the
collapsed values and flag values outside the 1.5-IQR fences. -/
def detectOutliersIqr (t : MetricTable) : List (String × ℚ × Bool) :=
  if t.rows.isEmpty || !t.hasValueCol then
    t.rows.map (fun r => (r.1, r.2, false))
  else
    let agg := groupMeans t.rows
    let q1 := quantile (agg.map (·.2)) (1/4)
    let q3 := quantile (agg.map (·.2)) (3/4)
    let iqr := q3 - q1
    agg.map (fun r =>
      (r.1, r.2, decide (r.2 < q1 - 3/2 * iqr) || decide (q3 + 3/2 * iqr < r.2)))

/-! ## Executive header KPIs (`metrics.compute_header_kpis`) -/

/-- The five KPI slots returned by `compute_header_kpis`. -/
structure HeaderKpis where
  total_sr : Option ℚ
  closure_rate : Option ℚ
  avg_hours_to_close : Option ℚ
  avg_first_response_hours : Option ℚ
  sla_compliance : Option ℚ
deriving DecidableEq, Repr

/-- `metrics.compute_header_kpis` over a loaded global-stats frame (all
columns present): every slot None on an empty frame; otherwise
closure_rate = sum(closed_sr)/sum(total_sr)*100 (None when the volume sum is
falsy, i.e. zero) and the other three are plain column means with NaN
skipping. -/
def computeHeaderKpis (df : List GlobalStatsRow) : HeaderKpis :=
  if df.isEmpty then
    { total_sr := none, closure_rate := none, avg_hours_to_close := none
      avg_first_response_hours := none, sla_compliance := none }
  else
    let total : ℚ := (df.map (fun r => (r.total_sr : ℚ))).sum
    let closed : ℚ := (df.map (fun r => (r.closed_sr : ℚ))).sum
    { total_sr := some total
      closure_rate := if total = 0 then none else some (closed / total * 100)
      avg_hours_to_close := meanOpt (df.map (·.avg_hours_to_close))
      avg_first_response_hours := meanOpt (df.map (·.avg_first_response_hours))
      sla_compliance := meanOpt (df.map (·.sla_compliance)) }

/-! ## Sidebar filters (`filters.apply_*_filter`) -/

/-- A displayed fact row, as far as the sidebar filters look at it. -/
structure FactRow where
  month : ℚ
  desk : String
  category : String
  status : String
deriving DecidableEq, Repr

/-- A fact frame with explicit column presence, as the filters test
`col in df.columns` before touching a column. -/
structure FactTable where
  hasMonth : Bool
  hasDesk : Bool
  hasCategory : Bool
  hasStatus : Bool
  rows : List FactRow
deriving DecidableEq, Repr

/-- `filters.apply_date_filter`: a no-op when the month column is absent or
the frame is empty; otherwise keep rows with dstart ≤ month ≤ dend
(inclusive; the month values are midnight timestamps, so the source's
date-level comparison coincides with the timestamp comparison). -/
def applyDateFilter (dstart dend : ℚ) (t : FactTable) : FactTable :=
  if !t.hasMonth || t.rows.isEmpty then t
  else { t with rows := t.rows.filter (fun r =>
    decide (dstart ≤ r.month) && decide (r.month ≤ dend)) }

/-- `filters.apply_desk_filter`: a no-op when the desk column is absent, the
frame is empty, or the selection is empty; otherwise set membership. -/
def applyDeskFilter (selected : List String) (t : FactTable) : FactTable :=
  if !t.hasDesk || t.rows.isEmpty then t
  else if selected.isEmpty then t
  else { t with rows := t.rows.filter (fun r => selected.contains r.desk) }

/-- `filters.apply_category_filter`: same shape as the desk filter. -/
def applyCategoryFilter (selected : List String) (t : FactTable) : FactTable :=
  if !t.hasCategory || t.rows.isEmpty then t
  else if selected.isEmpty then t
  else { t with rows := t.rows.filter (fun r => selected.contains r.category) }

/-- `filters.apply_status_filter`: a no-op when the status column is absent,
the frame is empty, or the selection is "All"; otherwise case-insensitive
equality on the status label. -/
def applyStatusFilter (selected : String) (t : FactTable) : FactTable :=
  if !t.hasStatus || t.rows.isEmpty then t
  else if selected = "All" then t
  else { t with rows := t.rows.filter (fun r =>
    r.status.toLower == selected.toLower) }

/-- `filters.apply_all_filters`: date, then desk, category and status, each
of the last three only when its column-name argument is truthy. -/
def applyAllFilters (dstart dend : ℚ) (desks cats : List String)
    (statusSel : String) (deskCol categoryCol statusCol : Bool)
    (t : FactTable) : FactTable :=
  let t1 := applyDateFilter dstart dend t
  let t2 := if deskCol then applyDeskFilter desks t1 else t1
  let t3 := if categoryCol then applyCategoryFilter cats t2 else t2
  if statusCol then applyStatusFilter statusSel t3 else t3

/-! ## The per-ticket sample exposed to the pages (`data_loader.load_sr_sample`) -/

/-- The ORDER BY key of `load_sr_sample`: `created_at`, with SQL NULL below
every value. -/
def createdKey (t : EnrichedTicket) : WithBot ℚ :=
  match t.created_at with
  | some x => (x : WithBot ℚ)
  | none => ⊥

/-- Row order of `ORDER BY created_at DESC`: larger keys first. -/
def createdDescBefore (a b : EnrichedTicket) : Prop := createdKey b ≤ createdKey a

instance : DecidableRel createdDescBefore :=
  fun a b => inferInstanceAs (Decidable (createdKey b ≤ createdKey a))

instance : IsTotal EnrichedTicket createdDescBefore :=
  ⟨fun a b => (le_total (createdKey b) (createdKey a)).imp id id⟩

instance : IsTrans EnrichedTicket createdDescBefore :=
  ⟨fun _ _ _ h1 h2 => le_trans h2 h1⟩

/-- `data_loader.load_sr_sample`: the enriched rows ordered by `created_at`
descending (NULLs last), truncated to the first `maxRows` (`LIMIT ?`). -/
def loadSrSample (ts : List EnrichedTicket) (maxRows : ℕ) : List EnrichedTicket :=
  (ts.insertionSort createdDescBefore).take maxRows

/-! ## Spec-side definitions and concrete inputs used by the theorems -/

/-- Spec side of C2: the SLA rate of a group computed over only its tickets
with both `closed_at` and `expiration_at` present; undefined (not zero)
when the group has no such ticket. -/
def slaRateOfEligible (g : List EnrichedTicket) : Option ℚ :=
  let elig := g.filter (fun t => t.closed_at.isSome && t.expiration_date.isSome)
  if elig.isEmpty then none
  else some (round2 ((elig.countP (fun t => decide (t.sla_met = some true)) : ℚ) /
    (elig.length : ℚ) * 100))

/-- A sample fact row for the filter witnesses. -/
def sampleFactRow : FactRow :=
  { month := dateHours 2025 1 1, desk := "7", category := "A", status := "Closed" }

/-- A table where every filterable column is absent. -/
def bareTable : FactTable :=
  { hasMonth := false, hasDesk := false, hasCategory := false
    hasStatus := false, rows := [sampleFactRow] }

/-- A table where every filterable column is present. -/
def fullTable : FactTable :=
  { hasMonth := true, hasDesk := true, hasCategory := true
    hasStatus := true, rows := [sampleFactRow] }

/-- A busy month: 99 tickets, 49 closed, SLA compliance 0. -/
def demoBusy : GlobalStatsRow :=
  { month := 0, total_sr := 99, closed_sr := 49, avg_hours_to_close := some 10
    avg_first_response_hours := none, open_sr := 50, closure_rate := 4949/100
    sla_compliance := some 0 }

/-- A quiet month: a single closed ticket, SLA compliance 100. -/
def demoQuiet : GlobalStatsRow :=
  { month := 720, total_sr := 1, closed_sr := 1, avg_hours_to_close := none
    avg_first_response_hours := none, open_sr := 0, closure_rate := 100
    sla_compliance := some 100 }

/-- A raw row whose three optional date fields are all malformed. -/
def malformedTicket : RawTicket :=
  { sr_id := 9, sr_number := "SR-9", category := "B", desk := "2"
    created_at := .ts (dateHours 2025 3 1), closed_at := .malformed
    expiration_date := .malformed, first_response_at := .malformed }

/-- A collapsed per-entity metric table whose entity "d" is an IQR outlier. -/
def outlierTable : MetricTable :=
  { hasValueCol := true
    rows := [("a", 1), ("b", 1), ("c", 1), ("d", 100)] }

/-- A raw open ticket with a given id and creation hour. -/
def mkOpenTicket (i : ℕ) (c : ℚ) : RawTicket :=
  { sr_id := i, sr_number := "", category := "X", desk := "1"
    created_at := .ts c, closed_at := .null, expiration_date := .null
    first_response_at := .null }

/-- Three rows with ids 1, 2, 3 created at hours 1, 2, 3. -/
def sampleRelA : List EnrichedTicket :=
  enrich [mkOpenTicket 1 1, mkOpenTicket 2 2, mkOpenTicket 3 3]

/-- The same three ids in the same positions, with the creation hours of
rows 1 and 3 exchanged. -/
def sampleRelB : List EnrichedTicket :=
  enrich [mkOpenTicket 1 3, mkOpenTicket 2 2, mkOpenTicket 3 1]

/-! ## Supporting lemmas -/

theorem cumsum_length (acc : ℚ) (xs : List ℚ) :
    (cumsum acc xs).length = xs.length := by
  induction xs generalizing acc with
  | nil => rfl
  | cons x xs ih => simpa [cumsum] using ih (acc + x)

theorem cumsum_getLast? (acc : ℚ) (xs : List ℚ) (h : xs ≠ []) :
    (cumsum acc xs).getLast? = some (acc + xs.sum) := by
  induction xs generalizing acc with
  | nil => exact absurd rfl h
  | cons x xs ih =>
    cases xs with
    | nil => simp [cumsum]
    | cons y ys =>
      have h2 : cumsum acc (x :: y :: ys) =
          (acc + x) :: (acc + x + y) :: cumsum (acc + x + y) ys := rfl
      have h3 : cumsum (acc + x) (y :: ys) =
          (acc + x + y) :: cumsum (acc + x + y) ys := rfl
      rw [h2, List.getLast?_cons_cons, ← h3, ih (acc + x) (by simp)]
      simp [add_assoc]

theorem cumsum_getElem? (xs : List ℚ) (acc : ℚ) (i : ℕ) (hi : i < xs.length) :
    (cumsum acc xs)[i]? = some (acc + (xs.take (i + 1)).sum) := by
  induction xs generalizing acc i with
  | nil => simp at hi
  | cons x xs ih =>
    cases i with
    | zero => simp [cumsum]
    | succ j =>
      have hj : j < xs.length := by simpa using hi
      rw [show cumsum acc (x :: xs) = (acc + x) :: cumsum (acc + x) xs from rfl,
        List.getElem?_cons_succ, ih _ _ hj]
      simp [List.take_succ_cons, add_assoc]

/-! ## Claim theorems -/

/-- C3: over any non-empty volume list with positive volumes and any N ≥ 1,
the Pareto line of `pareto_categories` divides each running sum by the sum
of the displayed top-N rows only, so the last shown row sits exactly at
100; on volumes [50, 30, 20] with N = 2 it is [62.5, 100]. -/
theorem pareto_cumulative (vols : List ℚ) (n : ℕ) (hn : 1 ≤ n) (hne : vols ≠ [])
    (hpos : ∀ v ∈ vols, 0 < v) :
    (paretoCumPct vols n).getLast? = some 100 ∧
    (∀ i, i < (paretoCumPct vols n).length →
      (paretoCumPct vols n)[i]? =
        some (((topNDesc n vols).take (i + 1)).sum / (topNDesc n vols).sum * 100)) ∧
    paretoCumPct [50, 30, 20] 2 = [125/2, 100] := by
  have hsortne : vols.insertionSort (· ≥ ·) ≠ [] := by
    intro h
    have hp := List.perm_insertionSort (· ≥ ·) vols
    rw [h] at hp
    exact hne hp.symm.eq_nil
  have hshown : topNDesc n vols ≠ [] := by
    unfold topNDesc
    rw [Ne, List.take_eq_nil_iff]
    push_neg
    exact ⟨by omega, hsortne⟩
  have hmem : ∀ v ∈ topNDesc n vols, 0 < v := fun v hv =>
    hpos v ((List.mem_insertionSort _).mp (List.mem_of_mem_take hv))
  have hsum : 0 < (topNDesc n vols).sum := List.sum_pos _ hmem hshown
  refine ⟨?_, ?_, by with_unfolding_all rfl⟩
  · simp only [paretoCumPct]
    rw [List.getLast?_map, cumsum_getLast? _ _ hshown]
    simp [div_self (ne_of_gt hsum)]
  · intro i hi
    have hlen : i < (topNDesc n vols).length := by
      simpa [paretoCumPct, cumsum_length] using hi
    simp only [paretoCumPct]
    rw [List.getElem?_map, cumsum_getElem? _ _ _ hlen]
    simp

/-- Witness for C3 at volumes [50, 30, 20] and N = 2. -/
theorem pareto_cumulative_witness :
    (paretoCumPct [50, 30, 20] 2).getLast? = some 100 ∧
    paretoCumPct [50, 30, 20] 2 = [125/2, 100] :=
  have h := pareto_cumulative [50, 30, 20] 2 (by omega)
    (by simp)
    (by intro v hv
        simp only [List.mem_cons, List.not_mem_nil, or_false] at hv
        rcases hv with rfl | rfl | rfl <;> norm_num)
  ⟨h.1, h.2.2⟩

/-- C4: aggregating an empty ticket relation under any of the five grouping
keys yields an empty fact table (its full column set is the row type of
each builder), and the loader turns a missing database file or a raised
query into an empty frame that carries exactly the schema's column list;
all functions are total, so no path raises. -/
theorem emptyInput_safety {Row : Type} (schema : List (String × String))
    (o : QueryOutcome Row) (h : o = .dbMissing ∨ o = .queryFailed) :
    querySql schema o = ⟨schema.map (·.1), []⟩ ∧
    buildGlobalStats [] = [] ∧ buildCategoryKpis [] = [] ∧
    buildMonthlyCategoryTrends [] = [] ∧ buildMonthlyDeskMetrics [] = [] ∧
    buildTreatmentTime [] = [] := by
  rcases h with rfl | rfl <;>
    exact ⟨rfl, rfl, rfl, rfl, rfl, rfl⟩

/-- Witness for C4 on the category-KPI schema and a missing database. -/
theorem emptyInput_safety_witness :
    querySql SCHEMA_CATEGORY_KPIS (QueryOutcome.dbMissing : QueryOutcome CategoryKpiRow) =
      ⟨SCHEMA_CATEGORY_KPIS.map (·.1), []⟩ ∧
    buildGlobalStats [] = [] ∧ buildCategoryKpis [] = [] ∧
    buildMonthlyCategoryTrends [] = [] ∧ buildMonthlyDeskMetrics [] = [] ∧
    buildTreatmentTime [] = [] :=
  emptyInput_safety SCHEMA_CATEGORY_KPIS QueryOutcome.dbMissing (Or.inl rfl)

/-- C7: each dimension filter returns its input unchanged when the relevant
column is absent from the table, and an empty desk or category selection
(or the "All" status selection) restricts nothing. -/
theorem filter_noop (t : FactTable) (dstart dend : ℚ)
    (desks cats : List String) (st : String) :
    (t.hasMonth = false → applyDateFilter dstart dend t = t) ∧
    (t.hasDesk = false → applyDeskFilter desks t = t) ∧
    applyDeskFilter [] t = t ∧
    (t.hasCategory = false → applyCategoryFilter cats t = t) ∧
    applyCategoryFilter [] t = t ∧
    (t.hasStatus = false → applyStatusFilter st t = t) ∧
    applyStatusFilter "All" t = t ∧
    (t.hasMonth = false →
      applyAllFilters dstart dend [] [] st true true false t = t) := by
  refine ⟨fun h => ?_, fun h => ?_, ?_, fun h => ?_, ?_, fun h => ?_, ?_, fun h => ?_⟩
  · simp [applyDateFilter, h]
  · simp [applyDeskFilter, h]
  · unfold applyDeskFilter
    split
    · rfl
    · simp
  · simp [applyCategoryFilter, h]
  · unfold applyCategoryFilter
    split
    · rfl
    · simp
  · simp [applyStatusFilter, h]
  · unfold applyStatusFilter
    split
    · rfl
    · simp
  · have hdate : applyDateFilter dstart dend t = t := by simp [applyDateFilter, h]
    have hdesk : applyDeskFilter [] t = t := by
      unfold applyDeskFilter
      split
      · rfl
      · simp
    have hcat : applyCategoryFilter [] t = t := by
      unfold applyCategoryFilter
      split
      · rfl
      · simp
    simp [applyAllFilters, hdate, hdesk, hcat]

theorem enrichRow_sla_met (r : RawTicket) :
    (enrichRow r).sla_met =
      match parseTs r.closed_at, parseTs r.expiration_date with
      | some c, some e => some (decide (c ≤ e))
      | _, _ => none := rfl

theorem enrichRow_sla_met_isSome (r : RawTicket) :
    (enrichRow r).sla_met.isSome =
      ((enrichRow r).closed_at.isSome && (enrichRow r).expiration_date.isSome) := by
  have h := enrichRow_sla_met r
  show (enrichRow r).sla_met.isSome =
    ((parseTs r.closed_at).isSome && (parseTs r.expiration_date).isSome)
  rw [h]
  cases parseTs r.closed_at <;> cases parseTs r.expiration_date <;> rfl

theorem mem_enrich_sla_met_isSome (rs : List RawTicket) :
    ∀ t ∈ enrich rs, t.sla_met.isSome =
      (t.closed_at.isSome && t.expiration_date.isSome) := by
  intro t ht
  obtain ⟨r, _, rfl⟩ := List.mem_map.mp ht
  exact enrichRow_sla_met_isSome r

theorem filterMap_sla_length (g : List EnrichedTicket) :
    (g.filterMap (·.sla_met)).length =
      (g.filter (fun t => t.sla_met.isSome)).length := by
  induction g with
  | nil => rfl
  | cons t g ih => cases h : t.sla_met <;>
      simp [List.filterMap_cons, List.filter_cons, h, ih]

theorem filterMap_sla_countP (g : List EnrichedTicket) :
    (g.filterMap (·.sla_met)).countP id =
      g.countP (fun t => decide (t.sla_met = some true)) := by
  induction g with
  | nil => rfl
  | cons t g ih =>
    cases h : t.sla_met with
    | none => simp [List.filterMap_cons, List.countP_cons, h, ih]
    | some b => cases b <;>
        simp [List.filterMap_cons, List.countP_cons, h, ih]

theorem countP_true_filter_isSome (g : List EnrichedTicket) :
    (g.filter (fun t => t.sla_met.isSome)).countP
        (fun t => decide (t.sla_met = some true)) =
      g.countP (fun t => decide (t.sla_met = some true)) := by
  induction g with
  | nil => rfl
  | cons t g ih => cases h : t.sla_met with
    | none => simp [List.filter_cons, List.countP_cons, h, ih]
    | some b => cases b <;> simp [List.filter_cons, List.countP_cons, h, ih]

theorem isEmpty_of_length_eq {α β : Type} (l1 : List α) (l2 : List β)
    (h : l1.length = l2.length) : l1.isEmpty = l2.isEmpty := by
  cases l1 <;> cases l2 <;> simp_all

/-- On rows produced by the normalizer, the code-side group SLA compliance
coincides with the spec-side rate over the rows with both dates present. -/
theorem slaCompliance_eq_rate (g : List EnrichedTicket)
    (hg : ∀ t ∈ g, t.sla_met.isSome =
      (t.closed_at.isSome && t.expiration_date.isSome)) :
    slaCompliance g = slaRateOfEligible g := by
  have hfil : g.filter (fun t => t.closed_at.isSome && t.expiration_date.isSome)
      = g.filter (fun t => t.sla_met.isSome) :=
    List.filter_congr (fun t ht => (hg t ht).symm)
  have hlen : (g.filterMap (·.sla_met)).length
      = (g.filter (fun t => t.sla_met.isSome)).length := filterMap_sla_length g
  simp only [slaCompliance, slaRateOfEligible, hfil]
  rw [isEmpty_of_length_eq _ _ hlen]
  split
  · rfl
  · rw [filterMap_sla_countP, countP_true_filter_isSome, hlen]

theorem mem_sortedKeys {κ : Type} [LinearOrder κ] (ks : List κ) (a : κ) :
    a ∈ sortedKeys ks ↔ a ∈ ks := by
  unfold sortedKeys
  rw [List.mem_insertionSort, List.mem_dedup]

/-- C2: in every aggregation group, a ticket with `closed_at` set but
`expiration_at` null has an undefined `sla_met`; the group's
`sla_compliance` equals the SLA rate over only the tickets with both dates
present; and a group with zero SLA-eligible tickets still appears in the
fact table, with `sla_compliance` undefined rather than dropped or zero
(stated for the month groups of `build_global_stats` and the category
groups of `build_category_kpis`). -/
theorem sla_exclusion (rs : List RawTicket) (m : ℚ) (c : String)
    (hm : some m ∈ (enrich rs).map (·.month))
    (hc : c ∈ (enrich rs).map (·.category)) :
    (∀ t ∈ enrich rs, t.closed_at.isSome → t.expiration_date = none →
      t.sla_met = none) ∧
    (∃ row ∈ buildGlobalStats (enrich rs), row.month = m ∧
      row.sla_compliance = slaRateOfEligible (monthGroup (enrich rs) m)) ∧
    (∃ row ∈ buildCategoryKpis (enrich rs), row.category = c ∧
      row.sla_compliance = slaRateOfEligible (catGroup (enrich rs) c)) := by
  refine ⟨?_, ?_, ?_⟩
  · intro t ht hclosed hexp
    have hs := mem_enrich_sla_met_isSome rs t ht
    rw [hclosed, hexp] at hs
    simp only [Option.isSome_none, Bool.and_false] at hs
    exact Option.not_isSome_iff_eq_none.mp (by simp [hs])
  · have hmem : m ∈ sortedKeys ((enrich rs).filterMap (·.month)) := by
      rw [mem_sortedKeys, List.mem_filterMap]
      obtain ⟨t, ht, hmt⟩ := List.mem_map.mp hm
      exact ⟨t, ht, hmt⟩
    refine ⟨_, List.mem_map_of_mem _ hmem, rfl, ?_⟩
    exact slaCompliance_eq_rate _ (fun t ht =>
      mem_enrich_sla_met_isSome rs t (List.mem_of_mem_filter ht))
  · have hmem : c ∈ sortedKeys ((enrich rs).map (·.category)) :=
      (mem_sortedKeys _ _).mpr hc
    refine ⟨_, List.mem_map_of_mem _ hmem, rfl, ?_⟩
    exact slaCompliance_eq_rate _ (fun t ht =>
      mem_enrich_sla_met_isSome rs t (List.mem_of_mem_filter ht))

/-- Witness for C2 on the three-ticket scenario, at the January 2025 month
group and the "A" category group. -/
theorem sla_exclusion_witness :
    (some (dateHours 2025 1 1) ∈ (enrich scenarioTickets).map (·.month)) ∧
    ("A" ∈ (enrich scenarioTickets).map (·.category)) ∧
    ((∀ t ∈ enrich scenarioTickets, t.closed_at.isSome →
        t.expiration_date = none → t.sla_met = none) ∧
     (∃ row ∈ buildGlobalStats (enrich scenarioTickets),
        row.month = dateHours 2025 1 1 ∧
        row.sla_compliance =
          slaRateOfEligible (monthGroup (enrich scenarioTickets) (dateHours 2025 1 1))) ∧
     (∃ row ∈ buildCategoryKpis (enrich scenarioTickets), row.category = "A" ∧
        row.sla_compliance =
          slaRateOfEligible (catGroup (enrich scenarioTickets) "A"))) :=
  have hml : (enrich scenarioTickets).map (·.month) =
      [some (dateHours 2025 1 1), some (dateHours 2025 1 1),
       some (dateHours 2025 2 1)] := by with_unfolding_all rfl
  have hm : some (dateHours 2025 1 1) ∈ (enrich scenarioTickets).map (·.month) := by
    rw [hml]; exact List.mem_cons_self _ _
  have hc : "A" ∈ (enrich scenarioTickets).map (·.category) := by
    have : (enrich scenarioTickets).map (·.category) = ["A", "A", "A"] := by
      with_unfolding_all rfl
    rw [this]; exact List.mem_cons_self _ _
  ⟨hm, hc, sla_exclusion scenarioTickets (dateHours 2025 1 1) "A" hm hc⟩

/-- Witness for C7 on concrete tables. -/
theorem filter_noop_witness :
    applyDateFilter 0 10 bareTable = bareTable ∧
    applyDeskFilter ["9"] bareTable = bareTable ∧
    applyDeskFilter [] fullTable = fullTable ∧
    applyCategoryFilter ["B"] bareTable = bareTable ∧
    applyCategoryFilter [] fullTable = fullTable ∧
    applyStatusFilter "Open" bareTable = bareTable ∧
    applyStatusFilter "All" fullTable = fullTable ∧
    applyAllFilters 0 10 [] [] "Open" true true false bareTable = bareTable :=
  have hb := filter_noop bareTable 0 10 ["9"] ["B"] "Open"
  have hf := filter_noop fullTable 0 10 ["9"] ["B"] "Open"
  ⟨hb.1 rfl, hb.2.1 rfl, hf.2.2.1, hb.2.2.2.1 rfl, hf.2.2.2.2.1,
    hb.2.2.2.2.2.1 rfl, hf.2.2.2.2.2.2.1, hb.2.2.2.2.2.2.2 rfl⟩

/-! ## IQR detection lemmas -/

theorem sortedKeys_sorted {κ : Type} [LinearOrder κ] (ks : List κ) :
    (sortedKeys ks).Sorted (· ≤ ·) := List.sorted_insertionSort _ _

theorem sortedKeys_nodup {κ : Type} [LinearOrder κ] (ks : List κ) :
    (sortedKeys ks).Nodup :=
  ((List.perm_insertionSort _ _).nodup_iff).mpr (List.nodup_dedup _)

theorem entityList_sorted (rows : List (String × ℚ)) :
    (entityList rows).Sorted (· ≤ ·) := sortedKeys_sorted _

theorem entityList_nodup (rows : List (String × ℚ)) :
    (entityList rows).Nodup := sortedKeys_nodup _

theorem sortedKeys_eq_self {κ : Type} [LinearOrder κ] (ks : List κ)
    (hs : ks.Sorted (· ≤ ·)) (hn : ks.Nodup) : sortedKeys ks = ks := by
  unfold sortedKeys
  rw [List.dedup_eq_self.mpr hn, hs.insertionSort_eq]

theorem sortedKeys_ne_nil {κ : Type} [LinearOrder κ] (ks : List κ)
    (h : ks ≠ []) : sortedKeys ks ≠ [] := by
  unfold sortedKeys
  intro h2
  have hp := List.perm_insertionSort (fun a b : κ => a ≤ b) ks.dedup
  rw [h2] at hp
  exact h ((List.dedup_eq_nil _).mp hp.symm.eq_nil)

theorem keys_groupMeans (rows : List (String × ℚ)) :
    (groupMeans rows).map (·.1) = entityList rows := by
  rw [groupMeans, List.map_map]
  exact List.map_id _

theorem filter_key_eq_nil (f : String → ℚ) (ks : List String) (g : String)
    (hg : g ∉ ks) :
    (ks.map (fun k => (k, f k))).filter (fun r => decide (r.1 = g)) = [] := by
  induction ks with
  | nil => rfl
  | cons k ks ih =>
    simp only [List.mem_cons, not_or] at hg
    have hk : k ≠ g := fun h => hg.1 h.symm
    simp [List.filter_cons, hk, ih hg.2]

theorem filter_key_mem (f : String → ℚ) (ks : List String) (g : String)
    (hn : ks.Nodup) (hg : g ∈ ks) :
    (ks.map (fun k => (k, f k))).filter (fun r => decide (r.1 = g))
      = [(g, f g)] := by
  induction ks with
  | nil => simp at hg
  | cons k ks ih =>
    rw [List.nodup_cons] at hn
    rcases List.mem_cons.mp hg with rfl | hgk
    · simp [List.filter_cons, filter_key_eq_nil f ks g hn.1]
    · have hkg : k ≠ g := fun h => hn.1 (h ▸ hgk)
      simp [List.filter_cons, hkg, ih hn.2 hgk]

theorem entityVals_keyed (f : String → ℚ) (ks : List String) (g : String)
    (hn : ks.Nodup) (hg : g ∈ ks) :
    entityVals (ks.map (fun k => (k, f k))) g = [f g] := by
  unfold entityVals
  rw [filter_key_mem f ks g hn hg]
  rfl

theorem groupMeans_idem (rows : List (String × ℚ)) :
    groupMeans (groupMeans rows) = groupMeans rows := by
  have hel : entityList (groupMeans rows) = entityList rows := by
    show sortedKeys ((groupMeans rows).map (·.1)) = entityList rows
    rw [keys_groupMeans]
    exact sortedKeys_eq_self _ (entityList_sorted rows) (entityList_nodup rows)
  show (entityList (groupMeans rows)).map
      (fun g => (g, (entityVals (groupMeans rows) g).sum /
        ((entityVals (groupMeans rows) g).length : ℚ))) = groupMeans rows
  rw [hel]
  show _ = (entityList rows).map
      (fun g => (g, (entityVals rows g).sum / ((entityVals rows g).length : ℚ)))
  refine List.map_congr_left (fun g hg => ?_)
  have hv : entityVals (groupMeans rows) g =
      [(entityVals rows g).sum / ((entityVals rows g).length : ℚ)] :=
    entityVals_keyed _ (entityList rows) g (entityList_nodup rows) hg
  rw [hv]
  simp

/-- C5: IQR outlier detection collapses to one value per entity (the mean of
its rows), computes Q1/Q3 as the 25th/75th percentiles of the collapsed
values with IQR = Q3 − Q1, and flags exactly the entities strictly outside
the 1.5-IQR fences; degenerate input (no rows or metric column absent)
returns the input rows with the flag false everywhere. -/
theorem iqr_detection (t : MetricTable) (hcol : t.hasValueCol = true)
    (hne : t.rows ≠ []) :
    (∀ u : MetricTable, u.rows = [] ∨ u.hasValueCol = false →
      detectOutliersIqr u = u.rows.map (fun r => (r.1, r.2, false))) ∧
    (∀ g mval b, ((g, mval, b) ∈ detectOutliersIqr t ↔
      g ∈ entityList t.rows ∧
      mval = (entityVals t.rows g).sum / ((entityVals t.rows g).length : ℚ) ∧
      b = (decide (mval < quantile ((groupMeans t.rows).map (·.2)) (1/4) -
            3/2 * (quantile ((groupMeans t.rows).map (·.2)) (3/4) -
              quantile ((groupMeans t.rows).map (·.2)) (1/4))) ||
          decide (quantile ((groupMeans t.rows).map (·.2)) (3/4) +
            3/2 * (quantile ((groupMeans t.rows).map (·.2)) (3/4) -
              quantile ((groupMeans t.rows).map (·.2)) (1/4)) < mval)))) := by
  constructor
  · intro u hu
    rcases hu with hu | hu <;> simp [detectOutliersIqr, hu]
  · intro g mval b
    have hcond : (t.rows.isEmpty || !t.hasValueCol) = false := by
      cases hr : t.rows
      · exact absurd hr hne
      · simp [hcol, hr]
    simp only [detectOutliersIqr, hcond, Bool.false_eq_true, if_false]
    constructor
    · intro hmem
      obtain ⟨r, hr, heq⟩ := List.mem_map.mp hmem
      obtain ⟨g', hg', rfl⟩ := List.mem_map.mp hr
      simp only [Prod.mk.injEq] at heq
      obtain ⟨rfl, rfl, rfl⟩ := heq
      exact ⟨hg', rfl, rfl⟩
    · rintro ⟨hg, rfl, rfl⟩
      exact List.mem_map.mpr ⟨_, List.mem_map.mpr ⟨g, hg, rfl⟩, rfl⟩

/-- Witness for C5 on a concrete table whose entity "d" is flagged. -/
theorem iqr_detection_witness :
    ("d", (100 : ℚ), true) ∈ detectOutliersIqr outlierTable ∧
    ("a", (1 : ℚ), false) ∈ detectOutliersIqr outlierTable :=
  have h := iqr_detection outlierTable rfl (by simp [outlierTable])
  ⟨(h.2 "d" 100 true).mpr
      ⟨by with_unfolding_all decide, by with_unfolding_all rfl,
       by with_unfolding_all rfl⟩,
   (h.2 "a" 1 false).mpr
      ⟨by with_unfolding_all decide, by with_unfolding_all rfl,
       by with_unfolding_all rfl⟩⟩

/-- C6: on an already-collapsed per-entity table, running IQR outlier
detection and then running it again on the resulting table (its flag column
dropped back to the metric) yields identical rows and flags. -/
theorem iqr_idempotent (t : MetricTable) (hcol : t.hasValueCol = true)
    (hnodup : (t.rows.map (·.1)).Nodup) :
    detectOutliersIqr
      { hasValueCol := true
        rows := (detectOutliersIqr t).map (fun r => (r.1, r.2.1)) } =
      detectOutliersIqr t := by
  have _hn := hnodup
  by_cases hrows : t.rows = []
  · simp [detectOutliersIqr, hrows]
  · have hcond : (t.rows.isEmpty || !t.hasValueCol) = false := by
      cases hr : t.rows
      · exact absurd hr hrows
      · simp [hcol, hr]
    have hstrip : (detectOutliersIqr t).map (fun r => (r.1, r.2.1))
        = groupMeans t.rows := by
      simp only [detectOutliersIqr, hcond, Bool.false_eq_true, if_false]
      rw [List.map_map]
      exact List.map_id _
    rw [hstrip]
    have hgne : groupMeans t.rows ≠ [] := by
      unfold groupMeans
      rw [Ne, List.map_eq_nil_iff]
      exact sortedKeys_ne_nil _ (by
        rw [Ne, List.map_eq_nil_iff]; exact hrows)
    have hcond2 : ((groupMeans t.rows).isEmpty || !true) = false := by
      cases hg : groupMeans t.rows
      · exact absurd hg hgne
      · simp [hg]
    simp only [detectOutliersIqr, hcond, hcond2, Bool.false_eq_true, if_false]
    rw [groupMeans_idem]

/-- Witness for C6 on a concrete collapsed table. -/
theorem iqr_idempotent_witness :
    ((outlierTable.rows.map (·.1)).Nodup) ∧
    detectOutliersIqr
      { hasValueCol := true
        rows := (detectOutliersIqr outlierTable).map (fun r => (r.1, r.2.1)) } =
      detectOutliersIqr outlierTable :=
  ⟨by decide, iqr_idempotent outlierTable rfl (by decide)⟩

/-! ## Enriched-row projections -/

theorem enrichRow_fields (r : RawTicket) :
    (enrichRow r).created_at = parseTs r.created_at ∧
    (enrichRow r).closed_at = parseTs r.closed_at ∧
    (enrichRow r).expiration_date = parseTs r.expiration_date ∧
    (enrichRow r).first_response_at = parseTs r.first_response_at ∧
    (enrichRow r).month = (parseTs r.created_at).map monthStart ∧
    (enrichRow r).hours_to_close =
      (match parseTs r.closed_at, parseTs r.created_at with
        | some c, some a => some (c - a) | _, _ => none) ∧
    (enrichRow r).first_response_hours =
      (match parseTs r.first_response_at, parseTs r.created_at with
        | some f, some a => some (f - a) | _, _ => none) :=
  ⟨rfl, rfl, rfl, rfl, rfl, rfl, rfl⟩

/-- C8: normalization is total and cardinality preserving (no row is ever
dropped and nothing raises), and a malformed value in any of the four date
fields is coerced to null at the row level, with every derived field
depending on it becoming undefined. -/
theorem malformed_coerced (rs : List RawTicket) :
    (enrich rs).length = rs.length ∧
    ∀ r : RawTicket,
      (r.created_at = .malformed →
        (enrichRow r).created_at = none ∧ (enrichRow r).month = none ∧
        (enrichRow r).hours_to_close = none ∧
        (enrichRow r).first_response_hours = none) ∧
      (r.closed_at = .malformed →
        (enrichRow r).closed_at = none ∧ (enrichRow r).hours_to_close = none ∧
        (enrichRow r).sla_met = none) ∧
      (r.expiration_date = .malformed →
        (enrichRow r).expiration_date = none ∧ (enrichRow r).sla_met = none) ∧
      (r.first_response_at = .malformed →
        (enrichRow r).first_response_at = none ∧
        (enrichRow r).first_response_hours = none) := by
  refine ⟨List.length_map _ _, fun r => ⟨?_, ?_, ?_, ?_⟩⟩ <;> intro h
  · have hp : parseTs r.created_at = none := by rw [h]; rfl
    refine ⟨?_, ?_, ?_, ?_⟩
    · rw [(enrichRow_fields r).1, hp]
    · rw [(enrichRow_fields r).2.2.2.2.1, hp]; rfl
    · rw [(enrichRow_fields r).2.2.2.2.2.1, hp]
      cases parseTs r.closed_at <;> rfl
    · rw [(enrichRow_fields r).2.2.2.2.2.2, hp]
      cases parseTs r.first_response_at <;> rfl
  · have hp : parseTs r.closed_at = none := by rw [h]; rfl
    refine ⟨?_, ?_, ?_⟩
    · rw [(enrichRow_fields r).2.1, hp]
    · rw [(enrichRow_fields r).2.2.2.2.2.1, hp]
    · rw [enrichRow_sla_met, hp]
  · have hp : parseTs r.expiration_date = none := by rw [h]; rfl
    refine ⟨?_, ?_⟩
    · rw [(enrichRow_fields r).2.2.1, hp]
    · rw [enrichRow_sla_met, hp]
      cases parseTs r.closed_at <;> rfl
  · have hp : parseTs r.first_response_at = none := by rw [h]; rfl
    refine ⟨?_, ?_⟩
    · rw [(enrichRow_fields r).2.2.2.1, hp]
    · rw [(enrichRow_fields r).2.2.2.2.2.2, hp]

/-- Witness for C8 on a concrete malformed row. -/
theorem malformed_coerced_witness :
    (enrich [malformedTicket]).length = 1 ∧
    (enrichRow malformedTicket).closed_at = none ∧
    (enrichRow malformedTicket).hours_to_close = none ∧
    (enrichRow malformedTicket).sla_met = none ∧
    (enrichRow malformedTicket).first_response_hours = none :=
  have h := malformed_coerced [malformedTicket]
  have hc := (h.2 malformedTicket).2.1 rfl
  have hf := (h.2 malformedTicket).2.2.2 rfl
  ⟨h.1, hc.1, hc.2.1, hc.2.2, hf.2⟩

/-- C9 (amended): `load_sr_sample` caps the per-ticket table exposed to the
pages deterministically at `maxRows` rows by keeping a maximal-recency
subset — ORDER BY `created_at` descending (NULLs last), then LIMIT — so the
output has min maxRows (input length) rows, each drawn from the input, and
every kept row's created_at key is at least that of every row left out. -/
theorem srSample_cap_recency (ts : List EnrichedTicket) (n : ℕ) :
    (loadSrSample ts n).length = min n ts.length ∧
    (∀ a ∈ loadSrSample ts n, a ∈ ts) ∧
    (∀ a ∈ loadSrSample ts n, ∀ b ∈ ts, b ∉ loadSrSample ts n →
      createdKey b ≤ createdKey a) := by
  have hperm := List.perm_insertionSort createdDescBefore ts
  refine ⟨?_, ?_, ?_⟩
  · rw [loadSrSample, List.length_take, hperm.length_eq]
  · intro a ha
    exact hperm.mem_iff.mp (List.mem_of_mem_take ha)
  · intro a ha b hb hnb
    have hsorted : (ts.insertionSort createdDescBefore).Sorted createdDescBefore :=
      List.sorted_insertionSort _ _
    have hbs : b ∈ ts.insertionSort createdDescBefore := hperm.mem_iff.mpr hb
    have hsplit : b ∈ (ts.insertionSort createdDescBefore).take n ++
        (ts.insertionSort createdDescBefore).drop n := by
      rw [List.take_append_drop]; exact hbs
    rcases List.mem_append.mp hsplit with h | h
    · exact absurd h hnb
    · exact hsorted.rel_of_mem_take_of_mem_drop ha h

/-- C9 counterexample: two relations with the same ids in the same
positions, differing only in where the created_at values sit;
`load_sr_sample` keeps ids [3, 2] from the first but [1, 2] from the
second, so the kept subset follows the created_at ordering, whereas a
fixed-seed random sample of 2 out of 3 rows selects the same positions for
both relations. -/
theorem srSample_not_random :
    (loadSrSample sampleRelA 2).map (·.sr_id) = [3, 2] ∧
    (loadSrSample sampleRelB 2).map (·.sr_id) = [1, 2] ∧
    sampleRelA.map (·.sr_id) = sampleRelB.map (·.sr_id) ∧
    sampleRelA.length = sampleRelB.length :=
  ⟨by with_unfolding_all rfl, by with_unfolding_all rfl,
   by with_unfolding_all rfl, rfl⟩

/-- C10: the executive header returns every KPI as None on an empty frame;
on a non-empty frame, closure_rate is the volume-weighted ratio
sum(closed_sr)/sum(total_sr)*100 while sla_compliance,
avg_hours_to_close and avg_first_response_hours are unweighted means of the
per-month values, skipping undefined entries — on the concrete two-month
frame, the 1-ticket month weighs as much as the 99-ticket month in
sla_compliance (mean(0, 100) = 50) but not in closure_rate (50/100·100). -/
theorem header_kpis (df : List GlobalStatsRow) (hne : df ≠ []) :
    computeHeaderKpis [] =
      { total_sr := none, closure_rate := none, avg_hours_to_close := none
        avg_first_response_hours := none, sla_compliance := none } ∧
    (computeHeaderKpis df).total_sr =
      some ((df.map (fun r => (r.total_sr : ℚ))).sum) ∧
    (computeHeaderKpis df).closure_rate =
      (if (df.map (fun r => (r.total_sr : ℚ))).sum = 0 then none
       else some ((df.map (fun r => (r.closed_sr : ℚ))).sum /
         (df.map (fun r => (r.total_sr : ℚ))).sum * 100)) ∧
    (computeHeaderKpis df).sla_compliance =
      (if (df.filterMap (·.sla_compliance)).isEmpty then none
       else some ((df.filterMap (·.sla_compliance)).sum /
         ((df.filterMap (·.sla_compliance)).length : ℚ))) ∧
    (computeHeaderKpis df).avg_hours_to_close =
      (if (df.filterMap (·.avg_hours_to_close)).isEmpty then none
       else some ((df.filterMap (·.avg_hours_to_close)).sum /
         ((df.filterMap (·.avg_hours_to_close)).length : ℚ))) ∧
    (computeHeaderKpis df).avg_first_response_hours =
      (if (df.filterMap (·.avg_first_response_hours)).isEmpty then none
       else some ((df.filterMap (·.avg_first_response_hours)).sum /
         ((df.filterMap (·.avg_first_response_hours)).length : ℚ))) ∧
    computeHeaderKpis [demoBusy, demoQuiet] =
      { total_sr := some 100, closure_rate := some 50
        avg_hours_to_close := some 10, avg_first_response_hours := none
        sla_compliance := some 50 } := by
  have hemp : df.isEmpty = false := by
    cases df
    · exact absurd rfl hne
    · rfl
  refine ⟨rfl, ?_, ?_, ?_, ?_, ?_, by with_unfolding_all rfl⟩ <;>
    simp [computeHeaderKpis, hemp, meanOpt, List.filterMap_map, Function.comp]

/-- Witness for C10 on the concrete two-month frame. -/
theorem header_kpis_witness :
    ([demoBusy, demoQuiet] : List GlobalStatsRow) ≠ [] ∧
    computeHeaderKpis [demoBusy, demoQuiet] =
      { total_sr := some 100, closure_rate := some 50
        avg_hours_to_close := some 10, avg_first_response_hours := none
        sla_compliance := some 50 } :=
  ⟨by simp, (header_kpis [demoBusy, demoQuiet] (by simp)).2.2.2.2.2.2⟩

end BNP
